import Mathlib

/-!
Shallow embedding of the IP-trust / session-authentication core of the
fastapi-start backend (src/apps/accounts/dependencies.py and
src/apps/accounts/services.py).

The relational stores (users, known_ips, banned_ips) are modelled as lists of
rows; a SELECT ... WHERE returning `.first()` becomes `List.find?`.  Database
sessions are threaded explicitly: an operation takes the store state and
returns `(Except Err result, state)`, where raising a domain error in Python
corresponds to an `Except.error` outcome.  The token codec (`decode_token`,
in src/utils/hashing.py, outside the staged tree) and the revocation store
(`token_in_blocklist`, src/db/redis.py) are modelled abstractly: the decoder
is an arbitrary pure function `String -> Option TokenData` — the spec's
`decode(token_string) -> claims | None` contract — and the revocation store
is the list of revoked jti values, with membership for `contains`.
-/

/-- The domain errors raised by the authentication core (src/errors.py). -/
inductive Err where
  | invalidToken
  | accessTokenRequired
  | refreshTokenRequired
  | userNotFound
  | unknownIpConflict
  | bannedIp
  | userBlocked
  | insufficientPermission
  | proxyConflict
  | userAlreadyExists
  deriving DecidableEq

/-- Decidable equality for `Except` results, used to evaluate concrete runs. -/
instance {ε α : Type} [DecidableEq ε] [DecidableEq α] : DecidableEq (Except ε α) := fun a b =>
  match a, b with
  | .ok x, .ok y =>
    if h : x = y then .isTrue (h ▸ rfl)
    else .isFalse (fun hc => h (by cases hc; rfl))
  | .error x, .error y =>
    if h : x = y then .isTrue (h ▸ rfl)
    else .isFalse (fun hc => h (by cases hc; rfl))
  | .ok _, .error _ => .isFalse (fun hc => Except.noConfusion hc)
  | .error _, .ok _ => .isFalse (fun hc => Except.noConfusion hc)

/-- The claims carried by a decoded bearer token: the decoder only returns a
dictionary on success, holding the `jti`, the boolean `refresh` flag and the
user identity (`token_data["user"]["email"]`); a successfully decoded token
dictionary is non-empty, so Python truthiness of `token_data` is `True`. -/
structure TokenData where
  jti : String
  refresh : Bool
  userEmail : String
  deriving DecidableEq

/-- TokenBearer.token_valid: re-decodes the token and tests the result
against `None` (dependencies.py lines 54-56). -/
def token_valid (decode : String → Option TokenData) (token : String) : Bool :=
  (decode token).isSome

/-- TokenBearer.__call__ (dependencies.py lines 31-52), parameterised by the
subclass's `verify_token_data` override, the abstract token decoder and the
revocation store contents (the jti values the blocklist holds).  The source
decodes, raises InvalidToken on a `None` decode, recomputes validity via
`token_valid`, queries the blocklist for the jti, raises InvalidToken when
either check fails, and only then runs `verify_token_data`. -/
def tokenBearerCall (verify : TokenData → Except Err Unit)
    (decode : String → Option TokenData) (blocklist : List String)
    (token : String) : Except Err TokenData :=
  match decode token with
  | none => .error .invalidToken
  | some token_data =>
    let token_is_valid := token_valid decode token
    let blocked := blocklist.contains token_data.jti
    if !token_is_valid then .error .invalidToken
    else if blocked then .error .invalidToken
    else
      match verify token_data with
      | .error e => .error e
      | .ok _ => .ok token_data

/-- AccessTokenBearer.verify_token_data (dependencies.py lines 62-65):
raises AccessTokenRequired when the decoded data carries `refresh = True`. -/
def accessVerifyTokenData (token_data : TokenData) : Except Err Unit :=
  if token_data.refresh then .error .accessTokenRequired else .ok ()

/-- RefreshTokenBearer.verify_token_data (dependencies.py lines 68-71):
raises RefreshTokenRequired when the decoded data carries `refresh = False`. -/
def refreshVerifyTokenData (token_data : TokenData) : Except Err Unit :=
  if !token_data.refresh then .error .refreshTokenRequired else .ok ()

/-- A full AccessTokenBearer() dependency call. -/
def accessTokenBearerCall (decode : String → Option TokenData)
    (blocklist : List String) (token : String) : Except Err TokenData :=
  tokenBearerCall accessVerifyTokenData decode blocklist token

/-- A full RefreshTokenBearer() dependency call. -/
def refreshTokenBearerCall (decode : String → Option TokenData)
    (blocklist : List String) (token : String) : Except Err TokenData :=
  tokenBearerCall refreshVerifyTokenData decode blocklist token

/-- The parts of a FastAPI `Request` the accounts code reads: the three
headers (each `Option` — a header can be absent, or present with any string
value, the empty string included), `request.url.hostname` (can be `None`), and
`request.client.host`, the transport-level peer address. -/
structure Request where
  nextIp : Option String
  xForwardedFor : Option String
  xRealIp : Option String
  hostname : Option String
  clientHost : String
  deriving DecidableEq

/-- The hostname allow-list of get_ip_address (dependencies.py line 110). -/
def recognizedHostnames : List String :=
  ["localhost", "api.jeremiahedavid.online", "api.jeremiahedavid.com.ng"]

/-- Python `request.url.hostname in [...]`: `None` is in no list. -/
def hostRecognized (hostname : Option String) : Bool :=
  match hostname with
  | some h => recognizedHostnames.contains h
  | none => false

/-- The characters before the first comma, i.e. Python `s.split(',')[0]`. -/
def beforeFirstComma : List Char → List Char
  | [] => []
  | c :: cs => if c = ',' then [] else c :: beforeFirstComma cs

/-- Python `str.strip()`: drop leading and trailing whitespace. -/
def pyStrip (l : List Char) : List Char :=
  ((l.dropWhile Char.isWhitespace).reverse.dropWhile Char.isWhitespace).reverse

/-- Python `ip.split(',')[0].strip()` on the X-Forwarded-For value
(dependencies.py line 113). -/
def firstForwardedHop (s : String) : String :=
  String.mk (pyStrip (beforeFirstComma s.toList))

/-- Python `ip or "127.0.0.1"` on a value of type `Optional[str]`
(dependencies.py line 117): `None` and the empty string are falsy. -/
def pyOrLoopback (ip : Option String) : String :=
  match ip with
  | none => "127.0.0.1"
  | some s => if s = "" then "127.0.0.1" else s

/-- get_ip_address (dependencies.py lines 107-117).  Reads the `next-ip`
header; when that is `None` and the hostname is recognized, falls back to the
first comma-separated hop of a truthy `X-Forwarded-For`, else to
`headers.get("X-Real-IP", request.client.host)`; the function returns the
resulting `Optional[str]` coerced through `ip or "127.0.0.1"`. -/
def get_ip_address (r : Request) : String :=
  pyOrLoopback
    (if r.nextIp.isNone && hostRecognized r.hostname then
      match r.xForwardedFor with
      | some fwd =>
        if fwd ≠ "" then some (firstForwardedHop fwd)
        else some (r.xRealIp.getD r.clientHost)
      | none => some (r.xRealIp.getD r.clientHost)
    else r.nextIp)

/-- A row of the `users` table, restricted to the columns the authentication
core reads or writes (src/apps/accounts/models.py; the primary key is
abstracted to a `Nat`). -/
structure UserRow where
  uid : Nat
  email : String
  passwordHash : String
  isBlocked : Bool
  isCompany : Bool
  isSuperuser : Bool
  country : Option String := none
  countryCode : Option String := none
  countryCallingCode : Option String := none
  currency : Option String := none
  inEu : Bool := false
  deriving DecidableEq

/-- A row of the `known_ips` table: the address and the owning user's uid
(the row's own surrogate primary key is irrelevant to every query). -/
structure KnownIpRow where
  ip : String
  userUid : Nat
  deriving DecidableEq

/-- A row of the `banned_ips` table. -/
structure BannedIpRow where
  ip : String
  userUid : Nat
  deriving DecidableEq

/-- The relational state the accounts code touches. -/
structure DB where
  users : List UserRow
  knownIps : List KnownIpRow
  bannedIps : List BannedIpRow
  deriving DecidableEq

/-- does_ip_exist (dependencies.py lines 119-138): resolve the client IP,
SELECT the known_ips row for `(user.uid, ip)` — absent raises
UnknownIpConflict — then SELECT the banned_ips row for `(ip, user.uid)` —
present raises BannedIp; otherwise return.  The state is threaded unchanged
through each SELECT. -/
def does_ip_exist (user : UserRow) (r : Request) (db : DB) : Except Err Unit × DB :=
  let ip := get_ip_address r
  let new_ip := db.knownIps.find? (fun k => k.userUid == user.uid && k.ip == ip)
  match new_ip with
  | none => (.error .unknownIpConflict, db)
  | some _ =>
    let banned_ip := db.bannedIps.find? (fun b => b.ip == ip && b.userUid == user.uid)
    match banned_ip with
    | some _ => (.error .bannedIp, db)
    | none => (.ok (), db)

/-- does_user_exist (dependencies.py lines 74-85): SELECT the user by email
when an email is given, else by uid; absent raises UserNotFound; then run
does_ip_exist (its errors propagate) and return the user. -/
def does_user_exist (email : Option String) (uid : Option Nat) (r : Request)
    (db : DB) : Except Err UserRow × DB :=
  let db_result :=
    match email with
    | some e => db.users.find? (fun u => u.email == e)
    | none => db.users.find? (fun u => some u.uid == uid)
  match db_result with
  | none => (.error .userNotFound, db)
  | some user =>
    match does_ip_exist user r db with
    | (.error e, db2) => (.error e, db2)
    | (.ok _, db2) => (.ok user, db2)

/-- get_current_user (dependencies.py lines 140-146): takes the decoded
token claims injected by AccessTokenBearer, resolves the user by the email
claim through does_user_exist, then raises UserBlocked when the resolved
user carries `isBlocked`. -/
def get_current_user (token_details : TokenData) (r : Request) (db : DB) :
    Except Err UserRow × DB :=
  let user_email := token_details.userEmail
  match does_user_exist (some user_email) none r db with
  | (.error e, db2) => (.error e, db2)
  | (.ok user, db2) =>
    if user.isBlocked then (.error .userBlocked, db2) else (.ok user, db2)

/-- permission_check (dependencies.py lines 148-151). -/
def permission_check (current_user : UserRow) : Except Err UserRow :=
  if !current_user.isCompany || !current_user.isSuperuser then
    .error .insufficientPermission
  else .ok current_user

/-- The registration form fields register_new_user reads
(UserCreateOrLoginSchema). -/
structure RegisterForm where
  email : String
  password : String
  deriving DecidableEq

/-- The location record produced by the external geo-IP call get_location,
whose fields register_new_user copies onto the new user. -/
structure LocationSchema where
  country : Option String := none
  country_code : Option String := none
  country_calling_code : Option String := none
  currency : Option String := none
  in_eu : Bool := false
  deriving DecidableEq

/-- UserService.get_user_by_email_or_uid, email branch
(services.py lines 34-44). -/
def get_user_by_email (email : String) (db : DB) : Option UserRow :=
  db.users.find? (fun u => u.email == email)

/-- UserService.register_new_user (services.py lines 64-112).  Looks the user
up by form email, computes the client IP — the source still guards
`if ip is None: raise ProxyConflict()`, although `get_ip_address` always
returns a string, so the bound value is `some (get_ip_address r)` — raises
UserAlreadyExists for an existing user, otherwise builds the new user row
(permission flags from the `permission` argument, geo fields from the
external location lookup, password hashed by the external `generateHashKey`,
a fresh uid from the column default), INSERTs it, INSERTs the new
known_ips row for the registering IP, and returns the generated
verification code. -/
def register_new_user (permission : String) (form : RegisterForm) (r : Request)
    (hash : String → String) (freshUid : Nat) (location : LocationSchema)
    (code : Nat) (db : DB) : Except Err Nat × DB :=
  let user := get_user_by_email form.email db
  let ip : Option String := some (get_ip_address r)
  match ip with
  | none => (.error .proxyConflict, db)
  | some ip =>
    match user with
    | some _ => (.error .userAlreadyExists, db)
    | none =>
      let new_user : UserRow :=
        { uid := freshUid
          email := form.email
          passwordHash := hash form.password
          isBlocked := false
          isCompany := permission == "company" || permission == "superuser"
          isSuperuser := permission == "superuser"
          country := location.country
          countryCode := location.country_code
          countryCallingCode := location.country_calling_code
          currency := location.currency
          inEu := location.in_eu }
      let db1 : DB := { db with users := db.users ++ [new_user] }
      let new_ip : KnownIpRow := { ip := ip, userUid := freshUid }
      let db2 : DB := { db1 with knownIps := db1.knownIps ++ [new_ip] }
      (.ok code, db2)

/-- UserService.add_allowed_ip (services.py lines 177-187): INSERT a
known_ips row for `(ip, user.uid)` and return the user. -/
def add_allowed_ip (user : UserRow) (ip : String) (db : DB) :
    Except Err UserRow × DB :=
  let new_ip : KnownIpRow := { ip := ip, userUid := user.uid }
  (.ok user, { db with knownIps := db.knownIps ++ [new_ip] })

/-- UserService.add_banned_ip (services.py lines 189-199): INSERT a
banned_ips row for `(ip, user.uid)` and return the user. -/
def add_banned_ip (user : UserRow) (ip : String) (db : DB) :
    Except Err UserRow × DB :=
  let new_ip : BannedIpRow := { ip := ip, userUid := user.uid }
  (.ok user, { db with bannedIps := db.bannedIps ++ [new_ip] })

/-- UserService.remove_banned_ip (services.py lines 201-209): SELECT the
banned_ips row for `(ip, user.uid)` and DELETE it when present. -/
def remove_banned_ip (user : UserRow) (ip : String) (db : DB) :
    Except Err Unit × DB :=
  let banned_ip := db.bannedIps.find? (fun b => b.ip == ip && b.userUid == user.uid)
  match banned_ip with
  | some row => (.ok (), { db with bannedIps := db.bannedIps.erase row })
  | none => (.ok (), db)

/-- The claim-words reading of get_ip_address for claim C6: each header is
returned whenever it is present, presence unqualified, and the loopback
default applies only to unrecognized hostnames without a `next-ip` header. -/
def get_ip_address_claimed (r : Request) : String :=
  match r.nextIp with
  | some v => v
  | none =>
    if hostRecognized r.hostname then
      match r.xForwardedFor with
      | some fwd => firstForwardedHop fwd
      | none =>
        match r.xRealIp with
        | some v => v
        | none => r.clientHost
    else "127.0.0.1"

/-- The amended reading of get_ip_address for claim C6, written in the
claim's precedence order: the `next-ip` header when present; otherwise, for
a recognized hostname, the stripped first comma-separated entry of a
non-empty `X-Forwarded-For`, else `X-Real-IP` when present, else the peer
address; otherwise no candidate — and any empty or missing candidate is
replaced by the loopback address. -/
def get_ip_address_amended (r : Request) : String :=
  let candidate : Option String :=
    match r.nextIp with
    | some v => some v
    | none =>
      if hostRecognized r.hostname then
        some (match r.xForwardedFor with
          | some fwd =>
            if fwd = "" then r.xRealIp.getD r.clientHost
            else firstForwardedHop fwd
          | none => r.xRealIp.getD r.clientHost)
      else none
  match candidate with
  | some s => if s = "" then "127.0.0.1" else s
  | none => "127.0.0.1"

/-- A decoder mapping one token string to revoked refresh-flagged claims,
used to evaluate the verifier on concrete inputs. -/
def decodeRevoked : String → Option TokenData :=
  fun t =>
    if t = "tok-revoked" then some { jti := "j1", refresh := true, userEmail := "a@b.c" }
    else none

/-- A decoder mapping one token string to non-revoked access claims. -/
def decodeFresh : String → Option TokenData :=
  fun t =>
    if t = "tok-access" then some { jti := "j2", refresh := false, userEmail := "a@b.c" }
    else none

/-- A concrete user row. -/
def uA : UserRow :=
  { uid := 1, email := "u1@mail.co", passwordHash := "h", isBlocked := false,
    isCompany := false, isSuperuser := false }

/-- A concrete blocked user row. -/
def uBlocked : UserRow :=
  { uid := 2, email := "u2@mail.co", passwordHash := "h", isBlocked := true,
    isCompany := false, isSuperuser := false }

/-- A request whose trusted-proxy header resolves to 10.0.0.1. -/
def rA : Request :=
  { nextIp := some "10.0.0.1", xForwardedFor := none, xRealIp := none,
    hostname := none, clientHost := "1.1.1.1" }

/-- A request whose trusted-proxy header resolves to 10.0.0.2. -/
def rB : Request :=
  { nextIp := some "10.0.0.2", xForwardedFor := none, xRealIp := none,
    hostname := none, clientHost := "1.1.1.1" }

/-- A request with a `next-ip` header present with the empty string value. -/
def rEmptyNextIp : Request :=
  { nextIp := some "", xForwardedFor := none, xRealIp := none,
    hostname := none, clientHost := "9.9.9.9" }

/-- A store where 10.0.0.1 is both known and banned for user 1. -/
def dbBoth : DB :=
  { users := [uA], knownIps := [{ ip := "10.0.0.1", userUid := 1 }],
    bannedIps := [{ ip := "10.0.0.1", userUid := 1 }] }

/-- A store where 10.0.0.1 is banned for user 1 but not known. -/
def dbBannedUnknown : DB :=
  { users := [uA], knownIps := [],
    bannedIps := [{ ip := "10.0.0.1", userUid := 1 }] }

/-- A store holding a blocked user with a banned, never-known address. -/
def dbC5 : DB :=
  { users := [uBlocked], knownIps := [],
    bannedIps := [{ ip := "10.0.0.1", userUid := 2 }] }

/-- The user row register_new_user inserts for the C7 witness run. -/
def uNew : UserRow :=
  { uid := 7, email := "new@mail.co", passwordHash := "pw", isBlocked := false,
    isCompany := false, isSuperuser := false }

/-- The store register_new_user produces from an empty store in the C7
witness run. -/
def dbAfterReg : DB :=
  { users := [uNew],
    knownIps := [{ ip := "10.0.0.1", userUid := 7 }],
    bannedIps := [] }

/-- The two SELECTs of does_ip_exist leave the store unchanged on every
path. -/
lemma does_ip_exist_frame (user : UserRow) (r : Request) (db : DB) :
    (does_ip_exist user r db).2 = db := by
  simp only [does_ip_exist]
  split
  · rfl
  · split <;> rfl

/-- does_user_exist leaves the store unchanged on every path. -/
lemma does_user_exist_frame (email : Option String) (uid : Option Nat)
    (r : Request) (db : DB) : (does_user_exist email uid r db).2 = db := by
  simp only [does_user_exist]
  cases email with
  | none =>
    cases hf : List.find? (fun u => some u.uid == uid) db.users with
    | none => simp [hf]
    | some user =>
      cases hu : does_ip_exist user r db with
      | mk fst snd =>
        have h : snd = db := by
          have h0 := does_ip_exist_frame user r db
          rw [hu] at h0
          simpa using h0
        cases fst <;> simp [hf, hu, h]
  | some e =>
    cases hf : List.find? (fun u => u.email == e) db.users with
    | none => simp [hf]
    | some user =>
      cases hu : does_ip_exist user r db with
      | mk fst snd =>
        have h : snd = db := by
          have h0 := does_ip_exist_frame user r db
          rw [hu] at h0
          simpa using h0
        cases fst <;> simp [hf, hu, h]

/-- get_current_user leaves the store unchanged on every path. -/
lemma get_current_user_frame (td : TokenData) (r : Request) (db : DB) :
    (get_current_user td r db).2 = db := by
  simp only [get_current_user]
  cases hu : does_user_exist (some td.userEmail) none r db with
  | mk fst snd =>
    have h : snd = db := by
      have h0 := does_user_exist_frame (some td.userEmail) none r db
      rw [hu] at h0
      simpa using h0
    cases fst with
    | error e => simp [h]
    | ok user => by_cases hb : user.isBlocked <;> simp [hb, h]

/-- Claim C1 (amended): for every user and client IP that is both in the
KnownIps store and in the BannedIps store for that user, does_ip_exist fails
with BannedIp — the ban vetoes the otherwise-passing known-IP check.  (The
original claim, refuted by C1_counterexample, asserted this irrespective of
KnownIps membership; when the IP is not known, UnknownIpConflict is raised
before the ban check is reached.) -/
theorem C1_ban_vetoes_known_ip (user : UserRow) (r : Request) (db : DB)
    (hknown : ∃ k ∈ db.knownIps, k.userUid = user.uid ∧ k.ip = get_ip_address r)
    (hban : ∃ b ∈ db.bannedIps, b.ip = get_ip_address r ∧ b.userUid = user.uid) :
    (does_ip_exist user r db).1 = Except.error Err.bannedIp := by
  have h1 : (db.knownIps.find?
      (fun k => k.userUid == user.uid && k.ip == get_ip_address r)).isSome = true := by
    rw [List.find?_isSome]
    obtain ⟨k, hk, hk1, hk2⟩ := hknown
    exact ⟨k, hk, by simp [hk1, hk2]⟩
  have h2 : (db.bannedIps.find?
      (fun b => b.ip == get_ip_address r && b.userUid == user.uid)).isSome = true := by
    rw [List.find?_isSome]
    obtain ⟨b, hb, hb1, hb2⟩ := hban
    exact ⟨b, hb, by simp [hb1, hb2]⟩
  cases hf1 : db.knownIps.find?
      (fun k => k.userUid == user.uid && k.ip == get_ip_address r) with
  | none => rw [hf1] at h1; simp at h1
  | some k =>
    cases hf2 : db.bannedIps.find?
        (fun b => b.ip == get_ip_address r && b.userUid == user.uid) with
    | none => rw [hf2] at h2; simp at h2
    | some b => simp [does_ip_exist, hf1, hf2]

/-- Claim C1 witness: user 1 resolving from 10.0.0.1, an address both known
and banned, fails with BannedIp. -/
theorem C1_witness : (does_ip_exist uA rA dbBoth).1 = Except.error Err.bannedIp :=
  C1_ban_vetoes_known_ip uA rA dbBoth
    ⟨{ ip := "10.0.0.1", userUid := 1 }, by decide, by decide, by decide⟩
    ⟨{ ip := "10.0.0.1", userUid := 1 }, by decide, by decide, by decide⟩

/-- Claim C1 counterexample: 10.0.0.1 is banned for user 1 but has no
KnownIps row, and does_ip_exist fails with UnknownIpConflict, not BannedIp —
the ban is not an overriding veto when the IP is unknown. -/
theorem C1_counterexample :
    dbBannedUnknown.bannedIps.contains { ip := get_ip_address rA, userUid := uA.uid } = true ∧
    (does_ip_exist uA rA dbBannedUnknown).1 = Except.error Err.unknownIpConflict ∧
    (does_ip_exist uA rA dbBannedUnknown).1 ≠ Except.error Err.bannedIp := by decide

/-- Claim C2 (amended): the bearer pipeline checks the revocation store
before the token kind, so a successfully decoded token with revoked jti is
rejected with InvalidToken whichever verifier runs, even when its kind is
wrong for that verifier.  (The original claim, refuted by C2_counterexample,
asserted the wrong-kind error is raised in that situation.) -/
theorem C2_revocation_checked_before_kind (decode : String → Option TokenData)
    (blocklist : List String) (token : String) (td : TokenData)
    (hdec : decode token = some td)
    (hrev : blocklist.contains td.jti = true) :
    (td.refresh = true →
      accessTokenBearerCall decode blocklist token = Except.error Err.invalidToken) ∧
    (td.refresh = false →
      refreshTokenBearerCall decode blocklist token = Except.error Err.invalidToken) := by
  have hrev2 : td.jti ∈ blocklist := by simpa using hrev
  unfold accessTokenBearerCall refreshTokenBearerCall tokenBearerCall token_valid
  rw [hdec]
  constructor <;> intro h <;> simp [hrev2]

/-- Claim C2 witness: a revoked refresh-kind token presented to the access
verifier is rejected with InvalidToken. -/
theorem C2_witness :
    accessTokenBearerCall decodeRevoked ["j1"] "tok-revoked" = Except.error Err.invalidToken :=
  (C2_revocation_checked_before_kind decodeRevoked ["j1"] "tok-revoked"
    { jti := "j1", refresh := true, userEmail := "a@b.c" } (by decide) (by decide)).1 rfl

/-- Claim C2 counterexample: a token that decodes to refresh claims whose
jti is revoked is rejected by the access verifier with InvalidToken, not
with the wrong-token-kind error AccessTokenRequired. -/
theorem C2_counterexample :
    decodeRevoked "tok-revoked" = some { jti := "j1", refresh := true, userEmail := "a@b.c" } ∧
    ["j1"].contains "j1" = true ∧
    accessTokenBearerCall decodeRevoked ["j1"] "tok-revoked" = Except.error Err.invalidToken ∧
    Err.invalidToken ≠ Err.accessTokenRequired := by decide

/-- Claim C3: for every token that decodes successfully with a non-revoked
jti, a false refresh flag makes the access verifier return the claims and
the refresh verifier raise RefreshTokenRequired, and a true refresh flag
symmetrically makes the refresh verifier return the claims and the access
verifier raise AccessTokenRequired. -/
theorem C3_kind_partition (decode : String → Option TokenData)
    (blocklist : List String) (token : String) (td : TokenData)
    (hdec : decode token = some td)
    (hrev : blocklist.contains td.jti = false) :
    (td.refresh = false →
      accessTokenBearerCall decode blocklist token = Except.ok td ∧
      refreshTokenBearerCall decode blocklist token = Except.error Err.refreshTokenRequired) ∧
    (td.refresh = true →
      refreshTokenBearerCall decode blocklist token = Except.ok td ∧
      accessTokenBearerCall decode blocklist token = Except.error Err.accessTokenRequired) := by
  have hrev2 : td.jti ∉ blocklist := by simpa using hrev
  unfold accessTokenBearerCall refreshTokenBearerCall tokenBearerCall token_valid
  rw [hdec]
  constructor <;> intro h <;>
    simp [hrev2, h, accessVerifyTokenData, refreshVerifyTokenData]

/-- Claim C3 witness: a concrete non-revoked access token is accepted by the
access verifier and rejected by the refresh verifier with
RefreshTokenRequired. -/
theorem C3_witness :
    (accessTokenBearerCall decodeFresh [] "tok-access" =
      Except.ok { jti := "j2", refresh := false, userEmail := "a@b.c" }) ∧
    refreshTokenBearerCall decodeFresh [] "tok-access" =
      Except.error Err.refreshTokenRequired :=
  (C3_kind_partition decodeFresh [] "tok-access"
    { jti := "j2", refresh := false, userEmail := "a@b.c" } (by decide) (by decide)).1 rfl

/-- Claim C4: every token that decodes successfully but whose jti is in the
revocation store is rejected by both verifiers with InvalidToken — the
identical error both verifiers raise for a token that fails to decode. -/
theorem C4_revoked_is_invalid_token (decode decode2 : String → Option TokenData)
    (blocklist : List String) (token token2 : String) (td : TokenData)
    (hdec : decode token = some td)
    (hrev : blocklist.contains td.jti = true)
    (hdec2 : decode2 token2 = none) :
    accessTokenBearerCall decode blocklist token = Except.error Err.invalidToken ∧
    refreshTokenBearerCall decode blocklist token = Except.error Err.invalidToken ∧
    accessTokenBearerCall decode2 blocklist token2 = Except.error Err.invalidToken ∧
    refreshTokenBearerCall decode2 blocklist token2 = Except.error Err.invalidToken := by
  have hrev2 : td.jti ∈ blocklist := by simpa using hrev
  unfold accessTokenBearerCall refreshTokenBearerCall tokenBearerCall token_valid
  rw [hdec, hdec2]
  simp [hrev2]

/-- Claim C4 witness: a concrete revoked-but-decodable token and a concrete
undecodable token are both rejected with InvalidToken by both verifiers. -/
theorem C4_witness :
    accessTokenBearerCall decodeRevoked ["j1"] "tok-revoked" = Except.error Err.invalidToken ∧
    refreshTokenBearerCall decodeRevoked ["j1"] "tok-revoked" = Except.error Err.invalidToken ∧
    accessTokenBearerCall (fun _ => none) ["j1"] "garbage" = Except.error Err.invalidToken ∧
    refreshTokenBearerCall (fun _ => none) ["j1"] "garbage" = Except.error Err.invalidToken :=
  C4_revoked_is_invalid_token decodeRevoked (fun _ => none) ["j1"] "tok-revoked" "garbage"
    { jti := "j1", refresh := true, userEmail := "a@b.c" } (by decide) (by decide) rfl

/-- Claim C5: for an existing user with no KnownIps row matching the
resolved client IP, does_ip_exist — and get_current_user through it — fails
with UnknownIpConflict, for every block flag and every BannedIps content:
the known-IP check is decided before the ban check and the block check. -/
theorem C5_unknown_ip_decided_first (td : TokenData) (r : Request) (db : DB)
    (user : UserRow)
    (hfind : db.users.find? (fun u => u.email == td.userEmail) = some user)
    (hnk : ∀ k ∈ db.knownIps, ¬(k.userUid = user.uid ∧ k.ip = get_ip_address r)) :
    (does_ip_exist user r db).1 = Except.error Err.unknownIpConflict ∧
    (get_current_user td r db).1 = Except.error Err.unknownIpConflict := by
  have hnone : db.knownIps.find?
      (fun k => k.userUid == user.uid && k.ip == get_ip_address r) = none := by
    rw [List.find?_eq_none]
    intro k hk
    simp only [Bool.and_eq_true, beq_iff_eq]
    intro h
    exact hnk k hk h
  constructor
  · simp [does_ip_exist, hnone]
  · simp [get_current_user, does_user_exist, does_ip_exist, hfind, hnone]

/-- Claim C5 witness: a blocked user with a banned, never-allowed address
still gets UnknownIpConflict, both from does_ip_exist and from
get_current_user. -/
theorem C5_witness :
    (does_ip_exist uBlocked rA dbC5).1 = Except.error Err.unknownIpConflict ∧
    (get_current_user { jti := "j3", refresh := false, userEmail := "u2@mail.co" }
      rA dbC5).1 = Except.error Err.unknownIpConflict :=
  C5_unknown_ip_decided_first
    { jti := "j3", refresh := false, userEmail := "u2@mail.co" } rA dbC5 uBlocked
    (by decide) (by decide)

/-- Claim C6 (amended): get_ip_address follows the claimed precedence —
next-ip, then for recognized hostnames the first X-Forwarded-For hop, then
X-Real-IP, then the peer address, else loopback — except that a candidate
counts only through Python truthiness: a present-but-empty next-ip header
(or an empty selected candidate generally) yields "127.0.0.1", and an empty
X-Forwarded-For value falls through to X-Real-IP.  (The original unqualified
presence reading is refuted by C6_counterexample.) -/
theorem C6_ip_precedence (r : Request) :
    get_ip_address r = get_ip_address_amended r := by
  obtain ⟨nip, xff, xrip, host, chost⟩ := r
  cases nip <;> cases xff <;>
    simp [get_ip_address, get_ip_address_amended, pyOrLoopback] <;>
    split_ifs <;> simp_all

/-- Claim C6 counterexample: with the next-ip header present but holding the
empty string, the code returns "127.0.0.1", not the header value the claim
requires. -/
theorem C6_counterexample :
    rEmptyNextIp.nextIp = some "" ∧
    get_ip_address_claimed rEmptyNextIp = "" ∧
    get_ip_address rEmptyNextIp = "127.0.0.1" ∧
    get_ip_address rEmptyNextIp ≠ get_ip_address_claimed rEmptyNextIp := by decide

/-- Claim C7: a successful register_new_user run leaves a KnownIps row for
the registering IP and the new user's uid; and after add_allowed_ip(u, b),
a does_ip_exist resolution for u from client IP b succeeds — in particular
no longer raises UnknownIpConflict — provided b is not banned for u. -/
theorem C7_allow_list_round_trip
    (permission : String) (form : RegisterForm) (r : Request)
    (hash : String → String) (freshUid : Nat) (location : LocationSchema)
    (code : Nat) (db db2 : DB) (n : Nat)
    (hreg : register_new_user permission form r hash freshUid location code db =
      (Except.ok n, db2))
    (user : UserRow) (b : String) (rb : Request) (db3 : DB)
    (hip : get_ip_address rb = b)
    (hnb : ∀ row ∈ (add_allowed_ip user b db3).2.bannedIps,
      ¬(row.ip = b ∧ row.userUid = user.uid)) :
    ({ ip := get_ip_address r, userUid := freshUid } : KnownIpRow) ∈ db2.knownIps ∧
    (does_ip_exist user rb (add_allowed_ip user b db3).2).1 = Except.ok () := by
  constructor
  · unfold register_new_user at hreg
    cases hu : get_user_by_email form.email db <;> rw [hu] at hreg <;> simp at hreg
    rw [← hreg.2]
    simp
  · have hmem : ({ ip := b, userUid := user.uid } : KnownIpRow) ∈
        (add_allowed_ip user b db3).2.knownIps := by
      simp [add_allowed_ip]
    have hsome : ((add_allowed_ip user b db3).2.knownIps.find?
        (fun k => k.userUid == user.uid && k.ip == get_ip_address rb)).isSome = true := by
      rw [List.find?_isSome]
      exact ⟨{ ip := b, userUid := user.uid }, hmem, by simp [hip]⟩
    have hnone : ((add_allowed_ip user b db3).2.bannedIps.find?
        (fun row => row.ip == get_ip_address rb && row.userUid == user.uid)) = none := by
      rw [List.find?_eq_none]
      intro row hrow
      simp only [Bool.and_eq_true, beq_iff_eq, hip]
      intro h
      exact hnb row hrow h
    cases hf : (add_allowed_ip user b db3).2.knownIps.find?
        (fun k => k.userUid == user.uid && k.ip == get_ip_address rb) with
    | none => rw [hf] at hsome; simp at hsome
    | some k => simp [does_ip_exist, hf, hnone]

/-- Claim C7 witness: registering from 10.0.0.1 into an empty store records
that IP as known for the new user, and after add_allowed_ip for 10.0.0.2 a
resolution from 10.0.0.2 succeeds. -/
theorem C7_witness :
    ({ ip := get_ip_address rA, userUid := 7 } : KnownIpRow) ∈ dbAfterReg.knownIps ∧
    (does_ip_exist uA rB (add_allowed_ip uA "10.0.0.2" dbAfterReg).2).1 = Except.ok () :=
  C7_allow_list_round_trip "user" { email := "new@mail.co", password := "pw" } rA
    (fun s => s) 7 {} 1234 { users := [], knownIps := [], bannedIps := [] } dbAfterReg 1234
    (by decide) uA "10.0.0.2" rB dbAfterReg (by decide) (by decide)

/-- Claim C8: identity resolution is a pure read path — does_user_exist,
does_ip_exist and get_current_user leave the stores unchanged on every
input, whether they succeed or fail. -/
theorem C8_resolution_is_pure_read (email : Option String) (uid : Option Nat)
    (td : TokenData) (user : UserRow) (r : Request) (db : DB) :
    (does_user_exist email uid r db).2 = db ∧
    (does_ip_exist user r db).2 = db ∧
    (get_current_user td r db).2 = db :=
  ⟨does_user_exist_frame email uid r db, does_ip_exist_frame user r db,
    get_current_user_frame td r db⟩

/-- Claim C9: permission_check returns the current user exactly when both
isCompany and isSuperuser are true; when either flag is false it raises
InsufficientPermission. -/
theorem C9_permission_requires_company_and_superuser (current_user : UserRow) :
    (current_user.isCompany = true ∧ current_user.isSuperuser = true →
      permission_check current_user = Except.ok current_user) ∧
    ((current_user.isCompany = false ∨ current_user.isSuperuser = false) →
      permission_check current_user = Except.error Err.insufficientPermission) := by
  cases hc : current_user.isCompany <;> cases hs : current_user.isSuperuser <;>
    simp [permission_check, hc, hs]

/-- The Python coercion `ip or "127.0.0.1"` never yields the empty string. -/
lemma pyOrLoopback_ne_empty (ip : Option String) : pyOrLoopback ip ≠ "" := by
  unfold pyOrLoopback
  cases ip with
  | none => decide
  | some s =>
    by_cases h : s = "" <;> simp [h]

/-- Claim C10: get_ip_address always returns a non-empty string, so the
ProxyConflict branch of register_new_user guarded by `ip is None` is
unreachable: no run of register_new_user errors with ProxyConflict. -/
theorem C10_proxy_conflict_unreachable (r : Request) (permission : String)
    (form : RegisterForm) (hash : String → String) (freshUid : Nat)
    (location : LocationSchema) (code : Nat) (db : DB) :
    get_ip_address r ≠ "" ∧
    (register_new_user permission form r hash freshUid location code db).1 ≠
      Except.error Err.proxyConflict := by
  constructor
  · unfold get_ip_address
    exact pyOrLoopback_ne_empty _
  · unfold register_new_user
    cases hu : get_user_by_email form.email db <;> simp [hu]
